import Mathlib

/-!
Shallow embedding of the MAC-Hosting Express application (server.js together
with schema.sql). Each definition below mirrors one function, route handler
or startup step of the source; machine concerns that the claims do not touch
(the HTTP wire format, EJS template contents, the created_at column default)
are left out, and external collaborators (bcrypt.compare, storage-layer
failures) are abstracted as explicit function or boolean parameters.
-/

namespace MacHosting

/-- Row of the users table: id, username, password_hash, name. -/
structure UserRow where
  id : Nat
  username : String
  password_hash : String
  name : String
deriving Repr, DecidableEq

/-- Row of the services table: id, title, price, summary. -/
structure ServiceRow where
  id : Nat
  title : String
  price : String
  summary : String
deriving Repr, DecidableEq

/-- Row of the messages table. The created_at column is a storage-side
default (CURRENT_TIMESTAMP) and is not modelled. -/
structure MessageRow where
  id : Nat
  name : String
  email : String
  message : String
  topics : String
deriving Repr, DecidableEq

/-- The SQLite store: which of the three tables currently exist, and the
rows each table holds. -/
structure Store where
  hasUsersTable : Bool
  hasServicesTable : Bool
  hasMessagesTable : Bool
  users : List UserRow
  services : List ServiceRow
  messages : List MessageRow
deriving Repr, DecidableEq

/-- A freshly created data.db before any schema statement ran. -/
def emptyStore : Store := ⟨false, false, false, [], [], []⟩

/-- Effect of executing schema.sql: three CREATE TABLE IF NOT EXISTS
statements, one per table, leaving existing tables and rows untouched. -/
def applySchemaSql (st : Store) : Store :=
  { st with hasUsersTable := true, hasServicesTable := true,
            hasMessagesTable := true }

/-- ensureSchema from server.js: runs schema.sql when the file exists, then
defensively checks sqlite_master for each table and creates any that is
missing (services, then users, then messages, in source order). The PRAGMA
statements do not change the modelled state. -/
def ensureSchema (schemaFileExists : Bool) (st : Store) : Store :=
  let st0 := if schemaFileExists then applySchemaSql st else st
  let st1 := if st0.hasServicesTable then st0
             else { st0 with hasServicesTable := true }
  let st2 := if st1.hasUsersTable then st1
             else { st1 with hasUsersTable := true }
  if st2.hasMessagesTable then st2
  else { st2 with hasMessagesTable := true }

/-- The single default administrative user inserted by seedIfEmpty; the
bcrypt hash of the fixed password is passed in, since hashing is salted and
external. -/
def adminUser (hash : String) (id : Nat) : UserRow :=
  ⟨id, "admin", hash, "Administrador"⟩

/-- The fixed list of three default services inserted by seedIfEmpty, with
autoincrement ids continuing after the given base. -/
def defaultServiceRows (base : Nat) : List ServiceRow :=
  [⟨base + 1, "Hosting Web Compartido", "Desde $5.99 Anual",
    "Plan rápido, seguro y económico para iniciar tu sitio."⟩,
   ⟨base + 2, "Servidores VPS", "Desde $8.99 Mensual",
    "Control total, rendimiento dedicado y escalabilidad."⟩,
   ⟨base + 3, "Correo Corporativo", "Incluido 1er año",
    "Dominios y cuentas corporativas con soporte 24/7."⟩]

/-- seedIfEmpty from server.js: SELECT COUNT from users; when and only when
the count is zero, insert the admin user and the three default services. -/
def seedIfEmpty (hash : String) (st : Store) : Store :=
  if st.users.length = 0 then
    { st with
        users := st.users ++ [adminUser hash (st.users.length + 1)],
        services := st.services ++ defaultServiceRows st.services.length }
  else st

/-- Observable outcome of process startup. -/
structure InitResult where
  schemaApplied : Bool
  seeded : Bool
  errorLogged : Bool
  processAborted : Bool
  listening : Bool
deriving Repr, DecidableEq

/-- The init IIFE of server.js on a normal start: one try block runs
ensureSchema and then seedIfEmpty, and the catch clause only logs the error.
app.listen at module level is reached in every case, and no error path
calls process.exit, so the process keeps accepting requests. -/
def initProcess (schemaFails seedFails : Bool) : InitResult :=
  if schemaFails then ⟨false, false, true, false, true⟩
  else if seedFails then ⟨true, false, true, false, true⟩
  else ⟨true, true, false, false, true⟩

/-- Identity snapshot stored into req.session.user on successful login. -/
structure Identity where
  id : Nat
  name : String
  username : String
deriving Repr, DecidableEq

/-- The value of req.body.topics as the body parser can deliver it: absent,
a single string (one checkbox selected), or an array of strings. -/
inductive TopicsVal where
  | undef : TopicsVal
  | str : String → TopicsVal
  | arr : List String → TopicsVal
deriving Repr, DecidableEq

/-- topicsStr from POST /contact. The destructuring default makes an absent
field the empty array; an array is joined with a comma and a space; a plain
string s becomes String of s-or-empty, where the only falsy string is the
empty one, so the result is s either way. -/
def topicsStr : TopicsVal → String
  | .undef => String.intercalate ", " ([] : List String)
  | .arr xs => String.intercalate ", " xs
  | .str s => if s = "" then "" else s

/-- Fields of a contact form submission. -/
structure ContactForm where
  name : String
  email : String
  message : String
  topics : TopicsVal
deriving Repr, DecidableEq

/-- The responses the application can produce: redirects, the rendered
templates with their view models, and the 500 error pages. -/
inductive Response where
  | redirect : String → Response
  | renderLogin : Option String → Response
  | renderDashboard : Identity → List ServiceRow → Response
  | renderContact : Identity → Option String → Response
  | renderHosting : Identity → Option ServiceRow → Response
  | renderStatic : String → Identity → Response
  | status500 : String → Response
deriving Repr, DecidableEq

/-- Full observable outcome of one request: the response, whether the route
handler behind the middleware ran, and the resulting store and session. -/
structure Outcome where
  response : Response
  handlerInvoked : Bool
  store : Store
  sessionAfter : Option Identity
deriving Repr, DecidableEq

/-- The requireAuth middleware: when req.session.user exists, control passes
to the route handler; otherwise the response is a redirect to /login and
the handler is never invoked. -/
def requireAuth (st : Store) (sess : Option Identity)
    (next : Identity → Outcome) : Outcome :=
  match sess with
  | some u => next u
  | none => ⟨Response.redirect "/login", false, st, none⟩

/-- SELECT * FROM users WHERE username matches; SQLite get returns the
first matching row. -/
def findUser (st : Store) (username : String) : Option UserRow :=
  st.users.find? (fun u => u.username == username)

/-- The generic invalid-credential message of POST /login. -/
def invalidCreds : String := "Usuario o contraseña inválidos"

/-- Body of the POST /login handler: look the user up by username, then
check the password against the stored hash with bcrypt.compare, abstracted
as verify. Returns the identity to store in the session on success. -/
def postLoginHandler (verify : String → String → Bool) (st : Store)
    (username password : String) : Option Identity × Response :=
  match findUser st username with
  | none => (none, Response.renderLogin (some invalidCreds))
  | some user =>
    if verify password user.password_hash then
      (some ⟨user.id, user.name, user.username⟩, Response.redirect "/dashboard")
    else
      (none, Response.renderLogin (some invalidCreds))

/-- GET /dashboard handler body: list all services, or the 500 page when
the read fails. -/
def getDashboardHandler (dbFail : Bool) (st : Store) (u : Identity) :
    Store × Response :=
  if dbFail then (st, Response.status500 "Error cargando dashboard")
  else (st, Response.renderDashboard u st.services)

/-- POST /contact handler body: normalise topics, INSERT one message row;
the catch branch re-renders the form with the failure notice and leaves the
store untouched, the success branch renders the success notice. -/
def postContactHandler (dbFail : Bool) (st : Store) (u : Identity)
    (f : ContactForm) : Store × Response :=
  if dbFail then
    (st, Response.renderContact u (some "No se pudo enviar. Intenta nuevamente."))
  else
    ({ st with messages := st.messages ++
        [⟨st.messages.length + 1, f.name, f.email, f.message,
          topicsStr f.topics⟩] },
     Response.renderContact u (some "Mensaje enviado correctamente."))

/-- The fixed title constant the hosting route looks up. -/
def hostingTitle : String := "Hosting Web Compartido"

/-- GET /hosting handler body: SELECT the first service whose title equals
the fixed constant and pass the possibly absent row to the template. -/
def getHostingHandler (dbFail : Bool) (st : Store) (u : Identity) :
    Store × Response :=
  if dbFail then (st, Response.status500 "Error cargando hosting")
  else (st, Response.renderHosting u
              (st.services.find? (fun s => s.title == hostingTitle)))

/-- The nine static service pages registered per route. -/
def servicePages : List String :=
  ["vps", "dedicados", "dominios", "ssl", "backup", "correo",
   "seguridad", "monitoreo", "creador"]

/-- The routes the application registers. -/
inductive Route where
  | getRoot : Route
  | getLogin : Route
  | postLogin : String → String → Route
  | postLogout : Route
  | getDashboard : Route
  | getAbout : Route
  | getContact : Route
  | postContact : ContactForm → Route
  | getHosting : Route
  | servicePage : String → Route
deriving Repr, DecidableEq

/-- Which routes are registered with the requireAuth middleware in
server.js. The logout route is registered without it. -/
def isProtected : Route → Bool
  | .getRoot => false
  | .getLogin => false
  | .postLogin _ _ => false
  | .postLogout => false
  | _ => true

/-- One request through the Express app: the requireAuth gate where it is
registered, then the route handler. verify abstracts bcrypt.compare and
dbFail injects a storage-layer failure into the handler body. -/
def dispatch (verify : String → String → Bool) (dbFail : Bool)
    (st : Store) (sess : Option Identity) : Route → Outcome
  | .getRoot => ⟨Response.redirect "/login", true, st, sess⟩
  | .getLogin =>
      match sess with
      | some _ => ⟨Response.redirect "/dashboard", true, st, sess⟩
      | none => ⟨Response.renderLogin none, true, st, sess⟩
  | .postLogin username password =>
      if dbFail then
        ⟨Response.renderLogin (some "Error interno. Intenta de nuevo."),
         true, st, sess⟩
      else
        match postLoginHandler verify st username password with
        | (some ident, resp) => ⟨resp, true, st, some ident⟩
        | (none, resp) => ⟨resp, true, st, sess⟩
  | .postLogout => ⟨Response.redirect "/login", true, st, none⟩
  | .getDashboard =>
      requireAuth st sess (fun u =>
        let r := getDashboardHandler dbFail st u
        ⟨r.2, true, r.1, sess⟩)
  | .getAbout =>
      requireAuth st sess (fun u =>
        ⟨Response.renderStatic "about" u, true, st, sess⟩)
  | .getContact =>
      requireAuth st sess (fun u =>
        ⟨Response.renderContact u none, true, st, sess⟩)
  | .postContact f =>
      requireAuth st sess (fun u =>
        let r := postContactHandler dbFail st u f
        ⟨r.2, true, r.1, sess⟩)
  | .getHosting =>
      requireAuth st sess (fun u =>
        let r := getHostingHandler dbFail st u
        ⟨r.2, true, r.1, sess⟩)
  | .servicePage page =>
      requireAuth st sess (fun u =>
        ⟨Response.renderStatic (String.append "services/" page) u,
         true, st, sess⟩)

/-- A user row and store used by concrete witnesses. -/
def demoUser : UserRow := ⟨1, "admin", "HASH", "Administrador"⟩

/-- A store holding only the demo admin user. -/
def demoStore : Store := ⟨true, true, true, [demoUser], [], []⟩

/-- A store whose services do not include the hosting row. -/
def vpsOnlyStore : Store :=
  ⟨true, true, true, [],
   [⟨1, "Servidores VPS", "Desde $8.99 Mensual", "vps"⟩], []⟩

end MacHosting

namespace MacHosting

/-- C1: every protected route (dashboard, about, contact GET and POST,
hosting, and each static service page) redirects to /login without invoking
its handler when the request carries no session identity; with a valid
session the handler is invoked and the resolved identity stays attached. -/
theorem c1_requireAuth_gates (verify : String → String → Bool) (dbFail : Bool)
    (st : Store) (u : Identity) (r : Route) (hp : isProtected r = true) :
    dispatch verify dbFail st none r
        = ⟨Response.redirect "/login", false, st, none⟩ ∧
    (dispatch verify dbFail st (some u) r).handlerInvoked = true ∧
    (dispatch verify dbFail st (some u) r).sessionAfter = some u := by
  cases r
  case getRoot => simp [isProtected] at hp
  case getLogin => simp [isProtected] at hp
  case postLogin username password => simp [isProtected] at hp
  case postLogout => simp [isProtected] at hp
  all_goals exact ⟨rfl, rfl, rfl⟩

/-- Witness for C1 at the dashboard route with a concrete store and user. -/
theorem c1_requireAuth_gates_witness :
    isProtected Route.getDashboard = true ∧
    (dispatch (fun _ _ => false) false demoStore none Route.getDashboard
        = ⟨Response.redirect "/login", false, demoStore, none⟩ ∧
     (dispatch (fun _ _ => false) false demoStore
        (some ⟨1, "Administrador", "admin"⟩)
        Route.getDashboard).handlerInvoked = true ∧
     (dispatch (fun _ _ => false) false demoStore
        (some ⟨1, "Administrador", "admin"⟩)
        Route.getDashboard).sessionAfter = some ⟨1, "Administrador", "admin"⟩) :=
  ⟨rfl, c1_requireAuth_gates (fun _ _ => false) false demoStore
    ⟨1, "Administrador", "admin"⟩ Route.getDashboard rfl⟩

/-- C2: seedIfEmpty inserts exactly one default admin user and exactly the
three default services when and only when the users table is empty; on any
store with at least one user it inserts nothing, so a second invocation
after a seed leaves the user count at 1 and does not duplicate services. -/
theorem c2_seed_run_once (h h2 : String) (st : Store) :
    (st.users = [] →
      (seedIfEmpty h st).users.length = 1 ∧
      (seedIfEmpty h st).services
          = st.services ++ defaultServiceRows st.services.length ∧
      seedIfEmpty h2 (seedIfEmpty h st) = seedIfEmpty h st) ∧
    (st.users ≠ [] → seedIfEmpty h st = st) := by
  constructor
  · intro he
    have h1 : seedIfEmpty h st
        = { st with
              users := st.users ++ [adminUser h (st.users.length + 1)],
              services := st.services ++ defaultServiceRows st.services.length } := by
      simp [seedIfEmpty, he]
    refine ⟨by simp [h1, he], by simp [h1], ?_⟩
    rw [h1]
    simp [seedIfEmpty, he]
  · intro hne
    have : st.users.length ≠ 0 := by
      simpa [List.length_eq_zero] using hne
    simp [seedIfEmpty, this]

/-- Witness for C2: seeding the empty store yields one user and the three
services, and seeding the already-seeded demo store changes nothing. -/
theorem c2_seed_run_once_witness :
    ((seedIfEmpty "H" emptyStore).users.length = 1 ∧
     (seedIfEmpty "H" emptyStore).services
        = emptyStore.services ++ defaultServiceRows emptyStore.services.length ∧
     seedIfEmpty "H2" (seedIfEmpty "H" emptyStore) = seedIfEmpty "H" emptyStore) ∧
    seedIfEmpty "H" demoStore = demoStore :=
  ⟨(c2_seed_run_once "H" "H2" emptyStore).1 rfl,
   (c2_seed_run_once "H" "H2" demoStore).2 (by decide)⟩

/-- C3 counterexample: with a storage failure during ensureSchema, the init
code catches the error in the same try block as seeding, logs it, does not
abort the process, and app.listen still runs, so the process continues to
accept requests: schema failure is not fatal, contrary to the claim. -/
theorem c3_schema_failure_not_fatal :
    (initProcess true false).processAborted = false ∧
    (initProcess true false).listening = true ∧
    (initProcess true false).errorLogged = true := by
  decide

/-- C3 amended: every startup failure, whether raised by ensureSchema or by
seedIfEmpty, is caught by the single try/catch of the init block and only
logged; in every case the process is not aborted and keeps listening. -/
theorem c3_init_failures_nonfatal (schemaFails seedFails : Bool) :
    (initProcess schemaFails seedFails).processAborted = false ∧
    (initProcess schemaFails seedFails).listening = true ∧
    (initProcess schemaFails seedFails).errorLogged
        = (schemaFails || seedFails) := by
  cases schemaFails <;> cases seedFails <;> decide

/-- C4: the login response for a username matching no user equals the
response for an existing username whose password fails verification: both
leave the session unauthenticated and render the same generic
invalid-credentials message, so the two causes are indistinguishable. -/
theorem c4_login_failures_indistinguishable
    (verify : String → String → Bool) (st : Store)
    (uA pA uB pB : String) (user : UserRow)
    (hA : findUser st uA = none)
    (hB : findUser st uB = some user)
    (hv : verify pB user.password_hash = false) :
    postLoginHandler verify st uA pA
        = (none, Response.renderLogin (some invalidCreds)) ∧
    postLoginHandler verify st uB pB = postLoginHandler verify st uA pA := by
  constructor
  · simp [postLoginHandler, hA]
  · simp [postLoginHandler, hA, hB, hv]

/-- Witness for C4 with the demo store: unknown user nouser and known user
admin with a failing password check produce identical outcomes. -/
theorem c4_login_failures_witness :
    postLoginHandler (fun _ _ => false) demoStore "nouser" "x"
        = (none, Response.renderLogin (some invalidCreds)) ∧
    postLoginHandler (fun _ _ => false) demoStore "admin" "wrong"
        = postLoginHandler (fun _ _ => false) demoStore "nouser" "x" :=
  c4_login_failures_indistinguishable (fun _ _ => false) demoStore
    "nouser" "x" "admin" "wrong" demoUser (by decide) (by decide) rfl

/-- C5: a list-valued topics selection is stored joined with the fixed
separator of a comma and a space, the concrete pair billing and support is
stored as one string with that separator, and the empty selection is stored
as the empty string. -/
theorem c5_topics_joined (st : Store) (u : Identity) (n e m : String)
    (xs : List String) :
    ((postContactHandler false st u ⟨n, e, m, TopicsVal.arr xs⟩).1.messages.map
        MessageRow.topics)
      = st.messages.map MessageRow.topics ++ [String.intercalate ", " xs] ∧
    topicsStr (TopicsVal.arr ["billing", "support"]) = "billing, support" ∧
    topicsStr (TopicsVal.arr []) = "" := by
  refine ⟨?_, by decide, rfl⟩
  simp [postContactHandler, topicsStr]

/-- C6: ensureSchema is idempotent: invoking it a second time returns the
exact same store, each table flag ends up set whether or not it was set
before, and the rows of all three tables are left untouched. -/
theorem c6_ensureSchema_idempotent (b : Bool) (st : Store) :
    ensureSchema b (ensureSchema b st) = ensureSchema b st ∧
    (ensureSchema b st).users = st.users ∧
    (ensureSchema b st).services = st.services ∧
    (ensureSchema b st).messages = st.messages ∧
    (ensureSchema b st).hasUsersTable = true ∧
    (ensureSchema b st).hasServicesTable = true ∧
    (ensureSchema b st).hasMessagesTable = true := by
  rcases st with ⟨hu, hs, hm, us, sv, ms⟩
  cases b <;> cases hu <;> cases hs <;> cases hm <;>
    simp [ensureSchema, applySchemaSql]

/-- C7: when the message INSERT fails, the contact handler adds no row and
leaves the store exactly as it was while re-rendering the form with the
failure notice; on success exactly one row is appended and the success
notice is rendered. The handler is a total function, so neither branch
crashes the process. -/
theorem c7_contact_failure_atomic (st : Store) (u : Identity)
    (f : ContactForm) :
    (postContactHandler true st u f).1 = st ∧
    (postContactHandler true st u f).2
      = Response.renderContact u (some "No se pudo enviar. Intenta nuevamente.") ∧
    (postContactHandler false st u f).1.messages.length
        = st.messages.length + 1 ∧
    (postContactHandler false st u f).2
      = Response.renderContact u (some "Mensaje enviado correctamente.") := by
  simp [postContactHandler]

/-- C8: the hosting handler passes the lookup of the service titled with
the fixed constant straight to the template; when no service carries that
title the template receives the absent value, and the handler, being a
total function, does not throw. -/
theorem c8_hosting_lookup (st : Store) (u : Identity)
    (habs : ∀ s ∈ st.services, ¬ s.title = hostingTitle) :
    (getHostingHandler false st u).2
        = Response.renderHosting u
            (st.services.find? (fun s => s.title == hostingTitle)) ∧
    (getHostingHandler false st u).2 = Response.renderHosting u none := by
  have hnone : st.services.find? (fun s => s.title == hostingTitle) = none := by
    rw [List.find?_eq_none]
    intro s hs
    simpa using habs s hs
  exact ⟨rfl, by simp [getHostingHandler, hnone]⟩

/-- Witness for C8: a store holding only the VPS service makes the hosting
template receive the absent value. -/
theorem c8_hosting_lookup_witness :
    (getHostingHandler false vpsOnlyStore ⟨1, "Administrador", "admin"⟩).2
      = Response.renderHosting ⟨1, "Administrador", "admin"⟩ none :=
  (c8_hosting_lookup vpsOnlyStore ⟨1, "Administrador", "admin"⟩
    (by decide)).2

/-- C9 counterexample: POST /logout is registered without the requireAuth
middleware, so a request carrying no session still reaches the logout
handler; the claim that the auth gate blocks the handler on such a request
is false at this concrete input. -/
theorem c9_logout_not_gated :
    (dispatch (fun _ _ => false) false demoStore none
        Route.postLogout).handlerInvoked = true ∧
    isProtected Route.postLogout = false :=
  ⟨rfl, rfl⟩

/-- C9 amended: the logout route carries no auth gate: for every session
state the handler itself runs, destroys the session, and responds with a
redirect to /login; an authenticated request thus ends unauthenticated, and
an unauthenticated request receives the same redirect after the handler
runs rather than being blocked by requireAuth. -/
theorem c9_logout_always_runs (verify : String → String → Bool)
    (dbFail : Bool) (st : Store) (sess : Option Identity) :
    dispatch verify dbFail st sess Route.postLogout
      = ⟨Response.redirect "/login", true, st, none⟩ := rfl

/-- C10: a single non-array topics value v is stored as v itself with no
separator applied, an absent topics field is stored as the empty string,
and the row the handler appends carries exactly that string. -/
theorem c10_topics_single (st : Store) (u : Identity) (n e m v : String) :
    topicsStr (TopicsVal.str v) = v ∧
    topicsStr TopicsVal.undef = "" ∧
    ((postContactHandler false st u ⟨n, e, m, TopicsVal.str v⟩).1.messages.map
        MessageRow.topics)
      = st.messages.map MessageRow.topics ++ [v] := by
  have hv : topicsStr (TopicsVal.str v) = v := by
    by_cases h : v = "" <;> simp [topicsStr, h]
  exact ⟨hv, rfl, by simp [postContactHandler, hv]⟩

end MacHosting
